import Mathlib

/-
Shallow embedding of justinclift/ip_country_code_lookup_importer (src/main.go).

The program is a one-shot migration: it resolves a configuration file path,
decodes it, opens a SQLite source database, connects to PostgreSQL, and inside
one transaction drops/recreates the table country_code_lookups, copies every
row of the source table ipv4 into it, creates an index on ipto, and compares
row counts between the two tables.  The commit call is commented out in the
source (main.go lines 211-216); a deferred tx.Rollback() is registered right
after Begin (lines 126-131).

Go semantics that the embedding must respect: log.Fatal / log.Fatalf print and
then call os.Exit, and os.Exit terminates the process WITHOUT running deferred
functions.  Hence the deferred rollback runs only when main returns normally,
i.e. on the success path; every log.Fatal path terminates with no rollback
call.  This is modelled by the Outcome type below: the deferred txRollback
event is appended to the trace only on normal return.

External calls (homedir lookup, toml decode, sqlite open, pg connect, Begin,
Exec of drop/create/index, the two count queries) are driver calls whose
results the program merely inspects; they are modelled as oracle fields of the
World structure.  The destination table itself is modelled semantically as the
in-transaction state PGTxState: an INSERT fails when the table is missing or
the primary key ipfrom is duplicated, and otherwise appends the row and
reports exactly one row affected, as PostgreSQL does for a single-row INSERT.
-/

namespace CountryImport

/-- One record of the ipv4 lookup table; struct oneRow in main.go
(fields ipFrom, ipTo, registry, assigned, ctry, cntry, country). -/
structure OneRow where
  ipFrom : Int
  ipTo : Int
  registry : String
  assigned : Int
  ctry : String
  cntry : String
  country : String
deriving DecidableEq, Repr

/-- The decoded configuration (struct TomlConfig with nested GeoInfo and
PGInfo in main.go). -/
structure TomlConfig where
  geoPath : String
  pgDatabase : String
  pgNumConnections : Int
  pgPort : Int
  pgPassword : String
  pgServer : String
  pgSSL : Bool
  pgUsername : String
deriving DecidableEq, Repr

/-- The part of crypto/tls.Config the program sets (main.go line 100). -/
structure TLSConfig where
  insecureSkipVerify : Bool
deriving DecidableEq, Repr

/-- main.go lines 100-105: clientTLSConfig := tls.Config\x7bInsecureSkipVerify:
true\x7d; if Conf.Pg.SSL then pgConfig.TLSConfig = &clientTLSConfig else
pgConfig.TLSConfig = nil. -/
def pgTLSConfig (ssl : Bool) : Option TLSConfig :=
  if ssl then some { insecureSkipVerify := true } else none

/-- Go os.Getenv: an unset variable and a variable set to the empty string
both yield the empty string. -/
def osGetenv (env : Option String) : String := env.getD ""

/-- filepath.Join(userHome, ".db4s", "status_updater.toml") of main.go
line 68, for a non-empty home path. -/
def defaultConfigPath (home : String) : String :=
  home ++ "/.db4s/status_updater.toml"

/-- main.go lines 62-69: take CONFIG_FILE from the environment; if the
resulting string is empty, fall back to the per-user default path, failing
(none) when the home directory lookup fails. -/
def resolveConfigFile (env : Option String) (home : Option String) : Option String :=
  let configFile := osGetenv env
  if configFile = "" then
    match home with
    | none => none
    | some h => some (defaultConfigPath h)
  else
    some configFile

/-- One column of the CREATE TABLE statement (name and SQL type). -/
structure ColumnDef where
  name : String
  sqlType : String
deriving DecidableEq, Repr

/-- The destination table name used throughout main.go. -/
def tableName : String := "country_code_lookups"

/-- The column list of the CREATE TABLE statement, main.go lines 143-152. -/
def theColumns : List ColumnDef :=
  [⟨"ipfrom", "bigint"⟩, ⟨"ipto", "bigint"⟩, ⟨"registry", "text"⟩,
   ⟨"assigned", "bigint"⟩, ⟨"ctry", "text"⟩, ⟨"cntry", "text"⟩,
   ⟨"country", "text"⟩]

/-- Observable events of a run, in program order. -/
inductive Event where
  | openSQLite (path : String)
  | pgConnect (server : String) (tls : Option TLSConfig)
  | txBegin
  | execDropTable (table : String)
  | execCreateTable (table : String) (cols : List ColumnDef) (primaryKey : String)
  | execInsert (table : String) (r : OneRow)
  | logWarning (msg : String)
  | execCreateIndex (indexName : String) (table : String) (column : String)
  | pgCount (n : Int)
  | sqliteCount (n : Int)
  | txCommit
  | txRollback
  | printSuccess
deriving DecidableEq, Repr

/-- How a run ends: log.Fatal / log.Fatalf with a message (os.Exit, deferred
functions skipped), or normal return from main (deferred functions run). -/
inductive Outcome where
  | fatalExit (msg : String)
  | success
deriving DecidableEq, Repr

/-- In-transaction view of the destination database state. -/
structure PGTxState where
  tableExists : Bool
  rows : List OneRow
deriving DecidableEq, Repr

/-- PostgreSQL semantics of the INSERT statement of main.go lines 225-228:
error when the table is missing or when the primary key ipfrom already
occurs; otherwise the row is appended and exactly one row is affected. -/
def pgExecInsert (st : PGTxState) (r : OneRow) : Except String (PGTxState × Int) :=
  if st.tableExists = false then
    .error "relation country_code_lookups does not exist"
  else if st.rows.any (fun x => x.ipFrom == r.ipFrom) then
    .error "duplicate key value violates unique constraint country_code_lookups_pk"
  else
    .ok ({ tableExists := true, rows := st.rows ++ [r] }, 1)

/-- The warning text of main.go line 233. -/
def wrongRowsMsg (numRows : Int) (ipFrom : Int) : String :=
  "Wrong number of rows affected (" ++ toString numRows ++
    ") when insert ip lookup data. ipfrom: " ++ toString ipFrom ++ ", \n"

/-- Result of insertIPv4PGData: either the process terminates via log.Fatal,
or the function returns to the scan callback, possibly after logging
warnings, carrying the error value it returns. -/
inductive InsertOutcome where
  | fatalExit (msg : String)
  | cont (warnings : List String) (returnedErr : Option String)
deriving DecidableEq, Repr

/-- main.go lines 223-236 (insertIPv4PGData), as a function of the row and of
the result the driver returns for the INSERT (error, or number of rows
affected): a driver error is log.Fatal; a wrong affected-row count logs a
warning and falls through; the returned err is nil on every return path. -/
def insertIPv4PGData (row : OneRow) (execResult : Except String Int) : InsertOutcome :=
  match execResult with
  | .error e => .fatalExit e
  | .ok numRows =>
    if numRows ≠ 1 then
      .cont [wrongRowsMsg numRows row.ipFrom] none
    else
      .cont [] none

/-- How the row-copy loop of main.go lines 160-177 ends: all rows done (the
callback returned nil every time), a Scan error (the callback returns the
error, sdb.Select propagates it, and main calls log.Fatal), or log.Fatal
raised inside insertIPv4PGData on a driver-level insert error. -/
inductive LoopResult where
  | ok
  | scanErr (msg : String)
  | insertFatal (msg : String)
deriving DecidableEq, Repr

/-- The row-copy loop, main.go lines 164-174: the sqlite Select callback
scans each row (a scan entry of none models a Scan error) and calls
insertIPv4PGData on it inside the open transaction.  Returns the events
emitted, the final transaction state, and how the loop ended. -/
def copyLoop (st : PGTxState) : List (Option OneRow) → List Event × PGTxState × LoopResult
  | [] => ([], st, .ok)
  | none :: _ => ([], st, .scanErr "scan error")
  | some r :: rest =>
    match pgExecInsert st r with
    | .error e =>
      -- insertIPv4PGData hits log.Fatal(err): os.Exit, loop never resumes
      ([Event.execInsert tableName r], st, .insertFatal e)
    | .ok (st1, numRows) =>
      let warnEvents := if numRows ≠ 1 then [Event.logWarning (wrongRowsMsg numRows r.ipFrom)] else []
      let tail := copyLoop st1 rest
      (Event.execInsert tableName r :: warnEvents ++ tail.1, tail.2)

/-- The text of main.go line 208 (log.Fatalf on mismatching row counts),
with both counts substituted. -/
def mismatchMsg (sqliteRows pgRows : Int) : String :=
  "Mismatching IPv4 row counts after import.  SQLite: " ++ toString sqliteRows ++
    ", PostgreSQL: " ++ toString pgRows ++ "\n"

/-- Everything outside the program that a run observes: the environment
variable, the results of the driver calls, the initial destination state and
the source table scan. -/
structure World where
  envConfigFile : Option String
  homeDir : Option String
  decodedConf : Option TomlConfig
  sqliteOpenOk : Bool
  pgConnectOk : Bool
  beginOk : Bool
  dropOk : Bool
  createOk : Bool
  sourceScan : List (Option OneRow)
  indexOk : Bool
  pgCountResult : Option Int
  sqliteCountResult : Option Int
  destTableExists : Bool
  destInitRows : List OneRow
deriving Repr

/-- The observable result of a run: the event trace, the way the process
ended, and the final in-transaction destination state (none when the
transaction was never begun). -/
structure RunResult where
  trace : List Event
  outcome : Outcome
  txState : Option PGTxState
deriving Repr

/-- The whole of main (main.go lines 59-220), step by step.  Every log.Fatal
terminates immediately (no deferred calls run); the deferred tx.Rollback of
lines 126-131 therefore appears only on the normal-return path, where it runs
because the commit of lines 212-216 is commented out in the source. -/
def runMain (w : World) : RunResult :=
  match resolveConfigFile w.envConfigFile w.homeDir with
  | none => ⟨[], .fatalExit "user home directory not determined", none⟩
  | some _configFile =>
  match w.decodedConf with
  | none => ⟨[], .fatalExit "toml decode error", none⟩
  | some conf =>
  let e1 := [Event.openSQLite conf.geoPath]
  if w.sqliteOpenOk = false then ⟨e1, .fatalExit "sqlite open error", none⟩ else
  let tls := pgTLSConfig conf.pgSSL
  let e2 := e1 ++ [Event.pgConnect conf.pgServer tls]
  if w.pgConnectOk = false then ⟨e2, .fatalExit "pg connect error", none⟩ else
  if w.beginOk = false then ⟨e2, .fatalExit "begin error", none⟩ else
  let e3 := e2 ++ [Event.txBegin]
  -- deferred tx.Rollback registered here; it runs only on normal return
  let st0 : PGTxState := { tableExists := w.destTableExists, rows := w.destInitRows }
  let e4 := e3 ++ [Event.execDropTable tableName]
  if w.dropOk = false then ⟨e4, .fatalExit "drop error", some st0⟩ else
  let st1 : PGTxState := { tableExists := false, rows := [] }
  let e5 := e4 ++ [Event.execCreateTable tableName theColumns "ipfrom"]
  if w.createOk = false then ⟨e5, .fatalExit "create error", some st1⟩ else
  let st2 : PGTxState := { tableExists := true, rows := [] }
  let loopOut := copyLoop st2 w.sourceScan
  let e6 := e5 ++ loopOut.1
  let st3 := loopOut.2.1
  match loopOut.2.2 with
  | .insertFatal m => ⟨e6, .fatalExit m, some st3⟩
  | .scanErr m => ⟨e6, .fatalExit m, some st3⟩
  | .ok =>
  let e7 := e6 ++ [Event.execCreateIndex "country_code_lookups_ipto_index" tableName "ipto"]
  if w.indexOk = false then ⟨e7, .fatalExit "index error", some st3⟩ else
  match w.pgCountResult with
  | none => ⟨e7, .fatalExit "error when counting rows in the pg table", some st3⟩
  | some pgRowCount =>
  let e8 := e7 ++ [Event.pgCount pgRowCount]
  match w.sqliteCountResult with
  | none => ⟨e8, .fatalExit "sqlite count error", some st3⟩
  | some sRowCount =>
  let e9 := e8 ++ [Event.sqliteCount sRowCount]
  if pgRowCount ≠ sRowCount then
    ⟨e9, .fatalExit (mismatchMsg sRowCount pgRowCount), some st3⟩
  else
    -- the commit of main.go lines 212-216 is commented out: no txCommit event;
    -- main prints the success line and returns, so the deferred rollback runs
    ⟨e9 ++ [Event.printSuccess, Event.txRollback], .success, some st3⟩

/-! Concrete configurations and worlds used to exercise the model. -/

/-- A concrete decoded configuration. -/
def okConf : TomlConfig :=
  { geoPath := "/data/Geo-IP.sqlite", pgDatabase := "db4s", pgNumConnections := 5,
    pgPort := 5432, pgPassword := "pw", pgServer := "pg.example.org", pgSSL := true,
    pgUsername := "db4s" }

/-- A world in which every driver call succeeds and the source table is
empty: the run succeeds with matching counts 0 and 0. -/
def baseWorld : World :=
  { envConfigFile := some "/etc/importer.toml"
    homeDir := some "/home/user"
    decodedConf := some okConf
    sqliteOpenOk := true
    pgConnectOk := true
    beginOk := true
    dropOk := true
    createOk := true
    sourceScan := []
    indexOk := true
    pgCountResult := some 0
    sqliteCountResult := some 0
    destTableExists := true
    destInitRows := [] }

/-- First sample source row. -/
def rowA : OneRow :=
  { ipFrom := 0, ipTo := 16777215, registry := "apnic", assigned := 0,
    ctry := "AU", cntry := "AUS", country := "Australia" }

/-- Second sample source row. -/
def rowB : OneRow :=
  { ipFrom := 16777216, ipTo := 33554431, registry := "apnic", assigned := 0,
    ctry := "CN", cntry := "CHN", country := "China" }

/-- A fully successful world whose source scan yields the two sample rows. -/
def twoRowWorld : World :=
  { baseWorld with sourceScan := [some rowA, some rowB],
                   pgCountResult := some 2, sqliteCountResult := some 2 }

/-! Helper lemmas about the row-copy loop. -/

/-- Every event the copy loop emits is an INSERT on the destination table or
a wrong-affected-row-count warning. -/
lemma copyLoop_mem_events (l : List (Option OneRow)) (st : PGTxState) (e : Event)
    (he : e ∈ (copyLoop st l).1) :
    (∃ r, e = Event.execInsert tableName r) ∨ ∃ m, e = Event.logWarning m := by
  induction l generalizing st with
  | nil => simp [copyLoop] at he
  | cons o rest ih =>
    cases o with
    | none => simp [copyLoop] at he
    | some r =>
      rcases hpe : pgExecInsert st r with e' | p
      · simp only [copyLoop, hpe] at he
        simp at he
        exact Or.inl ⟨r, he⟩
      · obtain ⟨st1, numRows⟩ := p
        simp only [copyLoop, hpe] at he
        simp at he
        rcases he with rfl | he
        · exact Or.inl ⟨r, rfl⟩
        rcases he with ⟨-, rfl⟩ | ht
        · exact Or.inr ⟨_, rfl⟩
        · exact ih _ ht

/-- Inversion of pgExecInsert when it succeeds. -/
lemma pgExecInsert_ok (st : PGTxState) (r : OneRow) (st1 : PGTxState) (n : Int)
    (h : pgExecInsert st r = .ok (st1, n)) :
    st.tableExists = true ∧ st.rows.any (fun x => x.ipFrom == r.ipFrom) = false ∧
      st1 = { tableExists := true, rows := st.rows ++ [r] } ∧ n = 1 := by
  unfold pgExecInsert at h
  split at h
  · exact absurd h (by simp)
  · split at h
    · exact absurd h (by simp)
    · rename_i h1 h2
      refine ⟨by simpa using h1, by simpa using h2, ?_, ?_⟩
      · exact (Prod.mk.injEq _ _ _ _ ▸ (Except.ok.injEq _ _ ▸ h)).1.symm
      · exact (Prod.mk.injEq _ _ _ _ ▸ (Except.ok.injEq _ _ ▸ h)).2.symm

/-- When the copy loop ends normally, every scan entry was a real row, the
rows were appended to the table in source order, and the ipfrom values of
the final table are pairwise distinct (the primary key held throughout). -/
lemma copyLoop_ok_spec (l : List (Option OneRow)) (st : PGTxState)
    (h : (copyLoop st l).2.2 = .ok)
    (hn : (st.rows.map OneRow.ipFrom).Nodup) :
    ∃ rs : List OneRow, l = rs.map some ∧
      (copyLoop st l).2.1.rows = st.rows ++ rs ∧
      ((st.rows ++ rs).map OneRow.ipFrom).Nodup := by
  induction l generalizing st with
  | nil => exact ⟨[], rfl, by simp [copyLoop], by simpa using hn⟩
  | cons o rest ih =>
    cases o with
    | none => simp [copyLoop] at h
    | some r =>
      rcases hpe : pgExecInsert st r with e' | p
      · simp [copyLoop, hpe] at h
      · obtain ⟨st1, numRows⟩ := p
        obtain ⟨hte, hfresh, hst1, hnum⟩ := pgExecInsert_ok st r st1 numRows hpe
        simp only [copyLoop, hpe] at h ⊢
        have hn1 : (st1.rows.map OneRow.ipFrom).Nodup := by
          subst hst1
          simp only [List.map_append, List.map_cons, List.map_nil]
          refine List.Nodup.append hn (by simp) ?_
          intro a ha hb
          simp at hb
          subst hb
          obtain ⟨x, hx, hxf⟩ := List.mem_map.mp ha
          have : st.rows.any (fun y => y.ipFrom == r.ipFrom) = true :=
            List.any_eq_true.mpr ⟨x, hx, by simp [hxf]⟩
          rw [hfresh] at this
          exact absurd this (by simp)
        obtain ⟨rs1, hrest, hrows, hnd⟩ := ih st1 (by simpa using h) hn1
        refine ⟨r :: rs1, by simp [hrest], ?_, ?_⟩
        · rw [hrows, hst1]
          simp
        · rw [hst1] at hnd
          simpa using hnd

/-- In a list of rows with pairwise-distinct ipfrom values, filtering on the
ipfrom of a member returns exactly that member. -/
lemma filter_ipFrom_eq (L : List OneRow) (r : OneRow)
    (hn : (L.map OneRow.ipFrom).Nodup) (hr : r ∈ L) :
    L.filter (fun x => x.ipFrom == r.ipFrom) = [r] := by
  induction L with
  | nil => simp at hr
  | cons a L ih =>
    simp only [List.map_cons, List.nodup_cons] at hn
    obtain ⟨ha, hn'⟩ := hn
    rcases List.mem_cons.mp hr with rfl | hr'
    · simp only [List.filter_cons]
      rw [if_pos (by simp)]
      have hnil : L.filter (fun x => x.ipFrom == r.ipFrom) = [] := by
        rw [List.filter_eq_nil_iff]
        intro x hx
        simp only [beq_iff_eq]
        intro hEq
        exact ha (hEq ▸ List.mem_map_of_mem OneRow.ipFrom hx)
      rw [hnil]
    · have hne : (a.ipFrom == r.ipFrom) = false := by
        simp only [beq_eq_false_iff_ne, ne_eq]
        intro hEq
        exact ha (hEq ▸ List.mem_map_of_mem OneRow.ipFrom hr')
      simp only [List.filter_cons, hne]
      simp only [Bool.false_eq_true, if_false]
      exact ih hn' hr'

/-- Inversion of a successful run: every stage must have succeeded, the two
row counts were equal, and the whole observable result is determined — the
trace ends with the success message followed by the deferred rollback (the
commit being commented out in the source), and the final in-transaction
state is the one the copy loop produced. -/
lemma runMain_success_inv (w : World) (h : (runMain w).outcome = .success) :
    ∃ conf n, w.decodedConf = some conf ∧
      w.pgCountResult = some n ∧ w.sqliteCountResult = some n ∧
      (copyLoop { tableExists := true, rows := [] } w.sourceScan).2.2 = .ok ∧
      runMain w =
        ⟨[Event.openSQLite conf.geoPath,
          Event.pgConnect conf.pgServer (pgTLSConfig conf.pgSSL),
          Event.txBegin,
          Event.execDropTable tableName,
          Event.execCreateTable tableName theColumns "ipfrom"] ++
          (copyLoop { tableExists := true, rows := [] } w.sourceScan).1 ++
          [Event.execCreateIndex "country_code_lookups_ipto_index" tableName "ipto",
           Event.pgCount n, Event.sqliteCount n,
           Event.printSuccess, Event.txRollback],
         .success,
         some (copyLoop { tableExists := true, rows := [] } w.sourceScan).2.1⟩ := by
  unfold runMain at h ⊢
  rcases hres : resolveConfigFile w.envConfigFile w.homeDir with _ | cf
  · simp [hres] at h
  simp only [hres] at h ⊢
  rcases hdec : w.decodedConf with _ | conf
  · simp [hdec] at h
  simp only [hdec] at h ⊢
  by_cases hsql : w.sqliteOpenOk = false
  · simp [hsql] at h
  simp only [if_neg hsql] at h ⊢
  by_cases hpg : w.pgConnectOk = false
  · simp [hpg] at h
  simp only [if_neg hpg] at h ⊢
  by_cases hbeg : w.beginOk = false
  · simp [hbeg] at h
  simp only [if_neg hbeg] at h ⊢
  by_cases hdrop : w.dropOk = false
  · simp [hdrop] at h
  simp only [if_neg hdrop] at h ⊢
  by_cases hcreate : w.createOk = false
  · simp [hcreate] at h
  simp only [if_neg hcreate] at h ⊢
  rcases hloop : (copyLoop { tableExists := true, rows := [] } w.sourceScan).2.2 with
    _ | m | m
  rotate_left 1
  · simp [hloop] at h
  · simp [hloop] at h
  simp only [hloop] at h ⊢
  by_cases hidx : w.indexOk = false
  · simp [hidx] at h
  simp only [if_neg hidx] at h ⊢
  rcases hpgc : w.pgCountResult with _ | n
  · simp [hpgc] at h
  simp only [hpgc] at h ⊢
  rcases hsc : w.sqliteCountResult with _ | m
  · simp [hsc] at h
  simp only [hsc] at h ⊢
  by_cases hcnt : n ≠ m
  · simp [hcnt] at h
  simp only [if_neg hcnt] at h ⊢
  have hnm : n = m := not_not.mp hcnt
  subst hnm
  exact ⟨conf, n, rfl, rfl, rfl, trivial, by simp⟩

/-- A world identical to baseWorld except that the DROP TABLE statement
fails. -/
def dropFailWorld : World := { baseWorld with dropOk := false }

/-- A world identical to baseWorld except that the two count queries return
different numbers. -/
def mismatchWorld : World :=
  { baseWorld with pgCountResult := some 0, sqliteCountResult := some 1 }

/-- A world in which CONFIG_FILE is unset and the home directory lookup
fails. -/
def noHomeWorld : World := { baseWorld with envConfigFile := none, homeDir := none }

/-- A world in which the toml decode of the configuration file fails. -/
def noDecodeWorld : World := { baseWorld with decodedConf := none }

/-! Claim theorems. -/

/-- C1: the claim says a run whose row-count verification succeeds commits
the destination transaction exactly once and does not roll it back.  On the
code this fails: the commit call is commented out (main.go lines 211-216),
so a fully successful run emits no commit and instead executes the deferred
rollback when main returns.  This theorem evaluates the model at such a
run. -/
theorem c1_success_run_has_no_commit_and_rolls_back :
    (runMain baseWorld).outcome = .success ∧
    (runMain baseWorld).trace.count Event.txCommit = 0 ∧
    Event.txRollback ∈ (runMain baseWorld).trace := by decide

/-- C2: after a successful run, the in-transaction destination table holds
exactly the scanned source rows, in order and verbatim, and for each source
row exactly one destination row matches its ipfrom, with all seven fields
equal to the source row. -/
theorem c2_round_trip_fidelity (w : World)
    (h : (runMain w).outcome = .success) :
    ∃ st rs, (runMain w).txState = some st ∧ w.sourceScan = rs.map some ∧
      st.rows = rs ∧
      ∀ r ∈ rs, st.rows.filter (fun x => x.ipFrom == r.ipFrom) = [r] := by
  obtain ⟨conf, n, hdec, hpgc, hsc, hloop, heq⟩ := runMain_success_inv w h
  obtain ⟨rs, hscan, hrows, hnd⟩ :=
    copyLoop_ok_spec w.sourceScan { tableExists := true, rows := [] } hloop (by simp)
  have hrows1 : (copyLoop { tableExists := true, rows := [] } w.sourceScan).2.1.rows = rs := by
    simpa using hrows
  refine ⟨(copyLoop { tableExists := true, rows := [] } w.sourceScan).2.1, rs,
    ?_, hscan, hrows1, ?_⟩
  · rw [heq]
  · intro r hr
    rw [hrows1]
    exact filter_ipFrom_eq rs r (by simpa using hnd) hr

/-- C2 witness: the round-trip property instantiated at a successful
two-row run. -/
theorem c2_round_trip_fidelity_witness :
    ∃ st rs, (runMain twoRowWorld).txState = some st ∧
      twoRowWorld.sourceScan = rs.map some ∧ st.rows = rs ∧
      ∀ r ∈ rs, st.rows.filter (fun x => x.ipFrom == r.ipFrom) = [r] :=
  c2_round_trip_fidelity twoRowWorld (by decide)

/-- C3: the claim says every exit path that does not reach an explicit
commit executes the rollback before the program terminates.  On the code
this fails: every fatal error goes through log.Fatal, which calls os.Exit,
and os.Exit does not run deferred functions, so the deferred tx.Rollback of
main.go lines 126-131 never executes on a fatal path.  This theorem
evaluates the model at a run whose DROP TABLE statement fails after the
transaction was begun: the process dies with no rollback event. -/
theorem c3_fatal_path_terminates_without_rollback :
    (runMain dropFailWorld).outcome = .fatalExit "drop error" ∧
    Event.txBegin ∈ (runMain dropFailWorld).trace ∧
    Event.txRollback ∉ (runMain dropFailWorld).trace := by decide

/-- C4: an insert whose driver result reports a number of affected rows
other than one logs the wrong-row-count warning and continues, returning a
nil error; an insert whose driver result is an error terminates the process
via log.Fatal. -/
theorem c4_insert_warning_nonfatal_driver_error_fatal :
    (∀ (row : OneRow) (n : Int), n ≠ 1 →
        insertIPv4PGData row (.ok n) = .cont [wrongRowsMsg n row.ipFrom] none) ∧
    (∀ (row : OneRow) (e : String),
        insertIPv4PGData row (.error e) = .fatalExit e) := by
  constructor
  · intro row n hn
    simp [insertIPv4PGData, hn]
  · intro row e
    rfl

/-- C4 witness: both branches exercised at concrete inputs. -/
theorem c4_insert_warning_nonfatal_driver_error_fatal_witness :
    insertIPv4PGData rowA (.ok 0) = .cont [wrongRowsMsg 0 rowA.ipFrom] none ∧
    insertIPv4PGData rowA (.error "db error") = .fatalExit "db error" :=
  ⟨c4_insert_warning_nonfatal_driver_error_fatal.1 rowA 0 (by decide),
   c4_insert_warning_nonfatal_driver_error_fatal.2 rowA "db error"⟩

/-- C5: in any run that reaches the verification step and whose two count
queries return different numbers, the program terminates fatally with the
message reporting both counts, and the success message is never printed. -/
theorem c5_count_mismatch_is_fatal (w : World) (cf : String) (conf : TomlConfig)
    (p s : Int)
    (hres : resolveConfigFile w.envConfigFile w.homeDir = some cf)
    (hdec : w.decodedConf = some conf)
    (hsql : w.sqliteOpenOk = true) (hpg : w.pgConnectOk = true)
    (hbeg : w.beginOk = true) (hdrop : w.dropOk = true) (hcreate : w.createOk = true)
    (hloop : (copyLoop { tableExists := true, rows := [] } w.sourceScan).2.2 = .ok)
    (hidx : w.indexOk = true)
    (hpgc : w.pgCountResult = some p) (hsc : w.sqliteCountResult = some s)
    (hne : p ≠ s) :
    (runMain w).outcome = .fatalExit (mismatchMsg s p) ∧
    Event.printSuccess ∉ (runMain w).trace := by
  unfold runMain
  simp only [hres, hdec, hsql, hpg, hbeg, hdrop, hcreate, hloop, hidx, hpgc, hsc]
  simp only [Bool.true_eq_false, if_false, if_pos hne]
  constructor
  · trivial
  · intro hmem
    simp at hmem
    rcases copyLoop_mem_events w.sourceScan _ _ hmem with ⟨r, hcontr⟩ | ⟨m, hcontr⟩ <;>
      exact Event.noConfusion hcontr

/-- C5 witness: counts 0 (destination) and 1 (source) at an otherwise
successful run. -/
theorem c5_count_mismatch_is_fatal_witness :
    (runMain mismatchWorld).outcome = .fatalExit (mismatchMsg 1 0) ∧
    Event.printSuccess ∉ (runMain mismatchWorld).trace :=
  c5_count_mismatch_is_fatal mismatchWorld "/etc/importer.toml" okConf 0 1
    (by decide) rfl rfl rfl rfl rfl rfl rfl rfl rfl rfl (by decide)

/-- C6: every successful run drops the destination table, then creates it
with exactly the seven declared columns and ipfrom as the primary key, and
then creates the index country_code_lookups_ipto_index on ipto, in that
order. -/
theorem c6_schema_drop_create_index (w : World)
    (h : (runMain w).outcome = .success) :
    ∃ l1 l2 l3 l4, (runMain w).trace =
      l1 ++ Event.execDropTable "country_code_lookups" ::
      (l2 ++ Event.execCreateTable "country_code_lookups"
        [⟨"ipfrom", "bigint"⟩, ⟨"ipto", "bigint"⟩, ⟨"registry", "text"⟩,
         ⟨"assigned", "bigint"⟩, ⟨"ctry", "text"⟩, ⟨"cntry", "text"⟩,
         ⟨"country", "text"⟩] "ipfrom" ::
      (l3 ++ Event.execCreateIndex "country_code_lookups_ipto_index"
        "country_code_lookups" "ipto" :: l4)) := by
  obtain ⟨conf, n, _, _, _, _, heq⟩ := runMain_success_inv w h
  refine ⟨[Event.openSQLite conf.geoPath,
           Event.pgConnect conf.pgServer (pgTLSConfig conf.pgSSL),
           Event.txBegin],
          [],
          (copyLoop { tableExists := true, rows := [] } w.sourceScan).1,
          [Event.pgCount n, Event.sqliteCount n,
           Event.printSuccess, Event.txRollback], ?_⟩
  rw [heq]
  simp [tableName, theColumns]

/-- C6 witness: the schema events at a concrete successful run. -/
theorem c6_schema_drop_create_index_witness :
    ∃ l1 l2 l3 l4, (runMain baseWorld).trace =
      l1 ++ Event.execDropTable "country_code_lookups" ::
      (l2 ++ Event.execCreateTable "country_code_lookups"
        [⟨"ipfrom", "bigint"⟩, ⟨"ipto", "bigint"⟩, ⟨"registry", "text"⟩,
         ⟨"assigned", "bigint"⟩, ⟨"ctry", "text"⟩, ⟨"cntry", "text"⟩,
         ⟨"country", "text"⟩] "ipfrom" ::
      (l3 ++ Event.execCreateIndex "country_code_lookups_ipto_index"
        "country_code_lookups" "ipto" :: l4)) :=
  c6_schema_drop_create_index baseWorld (by decide)

/-- C7: when the configured SSL flag is true, the connection configuration
carries a TLS configuration with certificate verification disabled
(InsecureSkipVerify set); when it is false, no TLS configuration is set. -/
theorem c7_tls_flag_insecure_or_plaintext :
    pgTLSConfig true = some { insecureSkipVerify := true } ∧
    pgTLSConfig false = none :=
  ⟨rfl, rfl⟩

/-- C8: a non-empty environment override is used as the configuration path
verbatim; otherwise the path is the home directory plus the fixed suffix
.db4s/status_updater.toml; a failed home lookup (with no override) and a
failed decode each terminate the run fatally with an empty trace, i.e.
before any database is opened. -/
theorem c8_config_path_resolution_and_failures :
    (∀ (e : String) (home : Option String), e ≠ "" →
        resolveConfigFile (some e) home = some e) ∧
    (∀ h : String, resolveConfigFile none (some h) =
        some (h ++ "/.db4s/status_updater.toml")) ∧
    (∀ w : World, osGetenv w.envConfigFile = "" → w.homeDir = none →
        runMain w = ⟨[], .fatalExit "user home directory not determined", none⟩) ∧
    (∀ (w : World) (p : String),
        resolveConfigFile w.envConfigFile w.homeDir = some p →
        w.decodedConf = none →
        runMain w = ⟨[], .fatalExit "toml decode error", none⟩) := by
  refine ⟨?_, ?_, ?_, ?_⟩
  · intro e home he
    simp [resolveConfigFile, osGetenv, he]
  · intro h
    simp [resolveConfigFile, osGetenv, defaultConfigPath]
  · intro w h1 h2
    unfold runMain
    simp [resolveConfigFile, h1, h2]
  · intro w p h1 h2
    unfold runMain
    simp [h1, h2]

/-- C8 witness: each of the four parts at concrete inputs. -/
theorem c8_config_path_resolution_and_failures_witness :
    resolveConfigFile (some "/etc/importer.toml") none = some "/etc/importer.toml" ∧
    resolveConfigFile none (some "/home/user") =
      some ("/home/user" ++ "/.db4s/status_updater.toml") ∧
    runMain noHomeWorld = ⟨[], .fatalExit "user home directory not determined", none⟩ ∧
    runMain noDecodeWorld = ⟨[], .fatalExit "toml decode error", none⟩ :=
  ⟨c8_config_path_resolution_and_failures.1 "/etc/importer.toml" none (by decide),
   c8_config_path_resolution_and_failures.2.1 "/home/user",
   c8_config_path_resolution_and_failures.2.2.1 noHomeWorld rfl rfl,
   c8_config_path_resolution_and_failures.2.2.2 noDecodeWorld "/etc/importer.toml"
     (by decide) rfl⟩

/-- C9: insertIPv4PGData either terminates the process (driver-level insert
error) or returns a nil error after at most logging warnings; consequently
the only way the scan callback propagates an error back to sdb.Select is a
Scan failure, never an insert failure. -/
theorem c9_insert_never_returns_error :
    (∀ (row : OneRow) (res : Except String Int),
        (∃ m, insertIPv4PGData row res = .fatalExit m) ∨
        ∃ ws, insertIPv4PGData row res = .cont ws none) ∧
    (∀ (st : PGTxState) (l : List (Option OneRow)) (m : String),
        (copyLoop st l).2.2 = .scanErr m → none ∈ l) := by
  constructor
  · intro row res
    match res with
    | .error e => exact Or.inl ⟨e, rfl⟩
    | .ok n =>
      by_cases hn : n = 1
      · subst hn
        exact Or.inr ⟨[], rfl⟩
      · exact Or.inr ⟨[wrongRowsMsg n row.ipFrom], by simp [insertIPv4PGData, hn]⟩
  · intro st l m
    induction l generalizing st with
    | nil =>
      intro h
      simp [copyLoop] at h
    | cons o rest ih =>
      intro h
      cases o with
      | none => exact List.mem_cons_self _ _
      | some r =>
        rcases hpe : pgExecInsert st r with e | p
        · simp [copyLoop, hpe] at h
        · obtain ⟨st1, nr⟩ := p
          simp only [copyLoop, hpe] at h
          exact List.mem_cons_of_mem _ (ih st1 h)

/-- C9 witness: the disjunction at a concrete driver error, and the
scan-error origin at a concrete scan list. -/
theorem c9_insert_never_returns_error_witness :
    ((∃ m, insertIPv4PGData rowA (.error "x") = .fatalExit m) ∨
      ∃ ws, insertIPv4PGData rowA (.error "x") = .cont ws none) ∧
    none ∈ ([none] : List (Option OneRow)) :=
  ⟨c9_insert_never_returns_error.1 rowA (.error "x"),
   c9_insert_never_returns_error.2 { tableExists := true, rows := [] }
     [none] "scan error" rfl⟩

/-- C10: setting CONFIG_FILE to the empty string is indistinguishable from
leaving it unset: the whole run behaves identically, falling back to the
default per-user configuration path. -/
theorem c10_empty_env_same_as_unset (w : World) :
    runMain { w with envConfigFile := some "" } =
    runMain { w with envConfigFile := none } := rfl

end CountryImport
